import Mathlib

set_option maxHeartbeats 1000000

/-!
Verification of the deployment pipeline implemented in deploy.sh.

The script is embedded shallowly: every external command the script can run
(docker, docker-compose, curl, filesystem operations) is represented by the
outcome it would have in a given `World`, and one run of the script is a pure
function from a `World` to an exit code together with the trace of mutating
operations performed and the log lines printed.  The bash `set -e` option
(line 6 of the script) is modelled faithfully: a failing plain command
terminates the run with that command's exit code, while commands whose
failure is tested by an `if` (including the whole body of `health_check`,
which is called as an `if` condition) do not abort the run.
-/

namespace DeploySh

/-- A wall-clock time at second granularity, the data read by the shell
command date with format %Y%m%d_%H%M%S inside backup_current. -/
structure DateTime where
  year : Nat
  month : Nat
  day : Nat
  hour : Nat
  minute : Nat
  second : Nat
deriving DecidableEq

/-- Field ranges produced by a real clock: a four-digit year, a calendar
month and day, and time-of-day fields. -/
def DateTime.valid (t : DateTime) : Prop :=
  t.year < 10000 ∧ 1 ≤ t.month ∧ t.month ≤ 12 ∧ 1 ≤ t.day ∧ t.day ≤ 31 ∧
    t.hour < 24 ∧ t.minute < 60 ∧ t.second < 60

instance (t : DateTime) : Decidable t.valid := by
  unfold DateTime.valid; infer_instance

/-- Chronological order on wall-clock times: lexicographic on the fields
from most significant to least significant. -/
def DateTime.chronoLt (a b : DateTime) : Prop :=
  a.year < b.year ∨ (a.year = b.year ∧
    (a.month < b.month ∨ (a.month = b.month ∧
      (a.day < b.day ∨ (a.day = b.day ∧
        (a.hour < b.hour ∨ (a.hour = b.hour ∧
          (a.minute < b.minute ∨ (a.minute = b.minute ∧
            a.second < b.second)))))))))

instance (a b : DateTime) : Decidable (a.chronoLt b) := by
  unfold DateTime.chronoLt; infer_instance

/-- Decimal digits of n, left padded with zeros to width w, most significant
digit first: the output of a fixed-width numeric date format specifier. -/
def padNum : Nat → Nat → List Char
  | 0, _ => []
  | w + 1, n => Nat.digitChar (n / 10 ^ w) :: padNum w (n % 10 ^ w)

/-- Characters of the backup id built in backup_current, line 83 of the
script: the word backup, an underscore, then date +%Y%m%d_%H%M%S. -/
def backupIdChars (t : DateTime) : List Char :=
  String.toList "backup_" ++ (padNum 4 t.year ++ (padNum 2 t.month ++ (padNum 2 t.day ++
    ('_' :: (padNum 2 t.hour ++ (padNum 2 t.minute ++ padNum 2 t.second))))))

/-- The BACKUP_NAME string generated by backup_current. -/
def backupId (t : DateTime) : String :=
  String.mk (backupIdChars t)

/-- The retention count hard-coded in cleanup: tail -n +6 keeps the first
five entries of the newest-first listing. -/
def retainCount : Nat := 5

/-- The backup directory listing produced by ls -t in cleanup: entries
ordered newest first.  Backup ids are derived from creation time at second
granularity (see backupId), so the modification-time ordering used by ls -t
coincides with ordering the ids decreasingly. -/
def lsByRecency (backups : List String) : List String :=
  backups.insertionSort (· ≥ ·)

/-- The backups surviving the retention step of cleanup: the pipeline
ls -t, tail -n +(retain+1), xargs -r rm -rf deletes every entry past the
first retain ones of the newest-first listing, so these first entries
survive. -/
def pruneKeep (retain : Nat) (backups : List String) : List String :=
  (lsByRecency backups).take retain

/-- The backups removed by the retention step of cleanup. -/
def pruneRemoved (retain : Nat) (backups : List String) : List String :=
  (lsByRecency backups).drop retain

/-- The three services probed by health_check, in the order the script
probes them. -/
inductive Service where
  | mainApi
  | scraperApi
  | frontend
deriving DecidableEq

/-- Mutating or externally visible operations a run of the script can
perform.  Log output is tracked separately. -/
inductive Op where
  | mkdirP (path : String)
  | writeContainerList (backupName : String)
  | copyEnvFile (backupName : String)
  | buildImages
  | stackDown
  | stackUp
  | sleepSettle
  | probe (s : Service)
  | imagePrune
  | pruneBackups (retain : Nat)
  | rollbackDown
  | composePs
deriving DecidableEq

/-- Operations performed and log lines printed by a stage. -/
structure Eff where
  ops : List Op
  logs : List String
deriving DecidableEq

/-- Outcomes of the external commands one run of deploy.sh can invoke.
Bool fields say whether a probe or a test succeeds; Nat fields give the
exit code the corresponding external command would return, 0 meaning
success.  The environment file presence is sampled twice because
check_prerequisites and backup_current each test it separately. -/
structure World where
  dockerInstalled : Bool
  composeInstalled : Bool
  envFilePresent : Bool
  composeFilePresent : Bool
  envFilePresentAtBackup : Bool
  containersRunning : Bool
  buildExit : Nat
  downExit : Nat
  upExit : Nat
  mainApiHealthy : Bool
  scraperApiHealthy : Bool
  frontendHealthy : Bool
  imagePruneExit : Nat
  backupPruneExit : Nat
  psExit : Nat
  teardownExit : Nat
  now : DateTime
deriving DecidableEq

/-- ENV_FILE configured at line 17 of the script. -/
def ENV_FILE : String := ".env.production"

/-- COMPOSE_FILE configured at line 16 of the script. -/
def COMPOSE_FILE : String := "docker-compose.production.yml"

/-- BACKUP_DIR configured at line 18 of the script. -/
def BACKUP_DIR : String := "./backups"

/-- LOG_DIR configured at line 19 of the script. -/
def LOG_DIR : String := "./logs"

/-- Sequencing of two stages under set -e: if the first stage exited the
script, the second never runs; otherwise effects accumulate and the second
stage decides whether the script exits. -/
def andThen (a : Option Nat × Eff) (b : Option Nat × Eff) : Option Nat × Eff :=
  match a with
  | (some c, e) => (some c, e)
  | (none, e) => (b.1, ⟨e.ops ++ b.2.ops, e.logs ++ b.2.logs⟩)

/-- Lines 35 to 63 of the script: each missing tool or artifact prints an
error and runs exit 1; nothing on disk is touched. -/
def check_prerequisites (w : World) : Option Nat × Eff :=
  if !w.dockerInstalled then
    (some 1, ⟨[], ["Checking prerequisites...", "Docker is not installed"]⟩)
  else if !w.composeInstalled then
    (some 1, ⟨[], ["Checking prerequisites...", "Docker Compose is not installed"]⟩)
  else if !w.envFilePresent then
    (some 1, ⟨[], ["Checking prerequisites...",
      "Environment file " ++ ENV_FILE ++ " not found"]⟩)
  else if !w.composeFilePresent then
    (some 1, ⟨[], ["Checking prerequisites...",
      "Docker Compose file " ++ COMPOSE_FILE ++ " not found"]⟩)
  else
    (none, ⟨[], ["Checking prerequisites...", "Prerequisites check passed"]⟩)

/-- Lines 66 to 76 of the script: five mkdir -p invocations. -/
def create_directories : Option Nat × Eff :=
  (none, ⟨[Op.mkdirP BACKUP_DIR, Op.mkdirP (LOG_DIR ++ "/nginx"),
    Op.mkdirP (LOG_DIR ++ "/main-api"), Op.mkdirP (LOG_DIR ++ "/scraper-api"),
    Op.mkdirP "./ssl"],
    ["Creating necessary directories...", "Directories created"]⟩)

/-- Lines 79 to 98 of the script: create the backup record directory,
conditionally snapshot the container listing, conditionally copy the
environment file (the copy is guarded by a fresh -f test). -/
def backup_current (w : World) : Option Nat × Eff :=
  (none,
    ⟨[Op.mkdirP (BACKUP_DIR ++ "/" ++ backupId w.now)] ++
      (if w.containersRunning then [Op.writeContainerList (backupId w.now)] else []) ++
      (if w.envFilePresentAtBackup then [Op.copyEnvFile (backupId w.now)] else []),
    ["Creating backup of current deployment..."] ++
      (if w.containersRunning then ["Docker container list backed up"] else []) ++
      (if w.envFilePresentAtBackup then ["Environment file backed up"] else []) ++
      ["Backup completed: " ++ backupId w.now]⟩)

/-- Lines 101 to 107 of the script: docker-compose build, under set -e a
nonzero exit terminates the run with the build command's exit code. -/
def build_images (w : World) : Option Nat × Eff :=
  if w.buildExit = 0 then
    (none, ⟨[Op.buildImages],
      ["Building Docker images...", "Docker images built successfully"]⟩)
  else
    (some w.buildExit, ⟨[Op.buildImages], ["Building Docker images..."]⟩)

/-- Lines 110 to 126 of the script: stop the old stack, start the new one,
sleep 10; under set -e either compose command failing terminates the run. -/
def deploy_services (w : World) : Option Nat × Eff :=
  if w.downExit ≠ 0 then
    (some w.downExit, ⟨[Op.stackDown],
      ["Deploying services...", "Stopping existing containers..."]⟩)
  else if w.upExit ≠ 0 then
    (some w.upExit, ⟨[Op.stackDown, Op.stackUp],
      ["Deploying services...", "Stopping existing containers...",
        "Starting new containers..."]⟩)
  else
    (none, ⟨[Op.stackDown, Op.stackUp, Op.sleepSettle],
      ["Deploying services...", "Stopping existing containers...",
        "Starting new containers...", "Waiting for services to be ready...",
        "Services deployed"]⟩)

/-- Lines 129 to 157 of the script.  The function is invoked as an if
condition, so set -e is suspended in its body; each failing probe prints an
error and immediately runs return 1, so later probes are skipped. -/
def health_check (w : World) : Bool × Eff :=
  if w.mainApiHealthy then
    if w.scraperApiHealthy then
      if w.frontendHealthy then
        (true, ⟨[Op.probe Service.mainApi, Op.probe Service.scraperApi,
          Op.probe Service.frontend],
          ["Running health checks...", "Main API is healthy",
            "Scraper API is healthy", "Frontend is healthy",
            "All health checks passed"]⟩)
      else
        (false, ⟨[Op.probe Service.mainApi, Op.probe Service.scraperApi,
          Op.probe Service.frontend],
          ["Running health checks...", "Main API is healthy",
            "Scraper API is healthy", "Frontend health check failed"]⟩)
    else
      (false, ⟨[Op.probe Service.mainApi, Op.probe Service.scraperApi],
        ["Running health checks...", "Main API is healthy",
          "Scraper API health check failed"]⟩)
  else
    (false, ⟨[Op.probe Service.mainApi],
      ["Running health checks...", "Main API health check failed"]⟩)

/-- Lines 160 to 173 of the script: docker image prune -f, then the backup
retention pipeline; both run under set -e, so a nonzero exit of either
terminates the run with that exit code. -/
def cleanup (w : World) : Option Nat × Eff :=
  if w.imagePruneExit ≠ 0 then
    (some w.imagePruneExit, ⟨[Op.imagePrune], ["Cleaning up old images..."]⟩)
  else if w.backupPruneExit ≠ 0 then
    (some w.backupPruneExit, ⟨[Op.imagePrune, Op.pruneBackups retainCount],
      ["Cleaning up old images..."]⟩)
  else
    (none, ⟨[Op.imagePrune, Op.pruneBackups retainCount],
      ["Cleaning up old images...", "Cleanup completed"]⟩)

/-- The linear stage sequence of main before the health check, lines 180 to
184 of the script, composed under set -e. -/
def stages (w : World) : Option Nat × Eff :=
  andThen (check_prerequisites w)
    (andThen create_directories
      (andThen (backup_current w)
        (andThen (build_images w) (deploy_services w))))

/-- Lines 180 to 200 of the script after the initial banner: the stage
sequence, then the health check branch.  On health success the script logs
success, runs cleanup and docker-compose ps; on health failure it logs an
error, runs docker-compose down and exit 1, where under set -e a failing
teardown terminates the run with the teardown's own exit code. -/
def mainRest (w : World) : Nat × Eff :=
  match stages w with
  | (some c, e) => (c, e)
  | (none, e) =>
    let h := health_check w
    if h.1 then
      match cleanup w with
      | (some c, ce) =>
        (c, ⟨e.ops ++ h.2.ops ++ ce.ops,
          e.logs ++ h.2.logs ++ ["Deployment completed successfully!"] ++ ce.logs⟩)
      | (none, ce) =>
        if w.psExit ≠ 0 then
          (w.psExit, ⟨e.ops ++ h.2.ops ++ ce.ops ++ [Op.composePs],
            e.logs ++ h.2.logs ++ ["Deployment completed successfully!"] ++
              ce.logs ++ ["Running containers:"]⟩)
        else
          (0, ⟨e.ops ++ h.2.ops ++ ce.ops ++ [Op.composePs],
            e.logs ++ h.2.logs ++ ["Deployment completed successfully!"] ++
              ce.logs ++ ["Running containers:",
                "Deployment logs available at: " ++ LOG_DIR]⟩)
    else
      if w.teardownExit ≠ 0 then
        (w.teardownExit, ⟨e.ops ++ h.2.ops ++ [Op.rollbackDown],
          e.logs ++ h.2.logs ++ ["Deployment failed! Rolling back..."]⟩)
      else
        (1, ⟨e.ops ++ h.2.ops ++ [Op.rollbackDown],
          e.logs ++ h.2.logs ++ ["Deployment failed! Rolling back..."]⟩)

/-- One run of the script: the banner line mentioning the environment
argument, then everything else.  The first positional argument is the only
place the environment name reaches. -/
def main (env : String) (w : World) : Nat × Eff :=
  let r := mainRest w
  (r.1, ⟨r.2.ops, ("Starting deployment for environment: " ++ env) :: r.2.logs⟩)

/-- All four prerequisite probes of check_prerequisites succeed. -/
def prereqsOk (w : World) : Prop :=
  w.dockerInstalled = true ∧ w.composeInstalled = true ∧
    w.envFilePresent = true ∧ w.composeFilePresent = true

instance (w : World) : Decidable (prereqsOk w) := by
  unfold prereqsOk; infer_instance

/-- Every external command of the run succeeds: the conditions under which
the script reaches its final line. -/
def succeededRun (w : World) : Prop :=
  prereqsOk w ∧ w.buildExit = 0 ∧ w.downExit = 0 ∧ w.upExit = 0 ∧
    w.mainApiHealthy = true ∧ w.scraperApiHealthy = true ∧
    w.frontendHealthy = true ∧ w.imagePruneExit = 0 ∧
    w.backupPruneExit = 0 ∧ w.psExit = 0

instance (w : World) : Decidable (succeededRun w) := by
  unfold succeededRun; infer_instance

/-- A fully successful world, used as a concrete witness. -/
def wOK : World :=
  ⟨true, true, true, true, true, true, 0, 0, 0, true, true, true, 0, 0, 0, 0,
    ⟨2024, 1, 2, 3, 4, 5⟩⟩

/-- A world whose environment file disappears between the prerequisite
check and the backup step. -/
def wME : World :=
  ⟨true, true, true, true, false, true, 0, 0, 0, true, true, true, 0, 0, 0, 0,
    ⟨2024, 1, 2, 3, 4, 5⟩⟩

/-- A world with a missing environment file at prerequisite time. -/
def wNoEnv : World :=
  ⟨true, true, false, true, true, true, 0, 0, 0, true, true, true, 0, 0, 0, 0,
    ⟨2024, 1, 2, 3, 4, 5⟩⟩

/-- A world whose build command fails with exit code 2. -/
def wBF : World :=
  ⟨true, true, true, true, true, true, 2, 0, 0, true, true, true, 0, 0, 0, 0,
    ⟨2024, 1, 2, 3, 4, 5⟩⟩

/-- A world whose main API health probe fails and whose rollback teardown
succeeds. -/
def wRB : World :=
  ⟨true, true, true, true, true, true, 0, 0, 0, false, true, true, 0, 0, 0, 0,
    ⟨2024, 1, 2, 3, 4, 5⟩⟩

/-- A world whose main API health probe fails and whose rollback teardown
itself fails with exit code 2. -/
def wRB2 : World :=
  ⟨true, true, true, true, true, true, 0, 0, 0, false, true, true, 0, 0, 0, 2,
    ⟨2024, 1, 2, 3, 4, 5⟩⟩

/-- A world where both the main API and the scraper API probes would fail. -/
def wHH : World :=
  ⟨true, true, true, true, true, true, 0, 0, 0, false, false, true, 0, 0, 0, 0,
    ⟨2024, 1, 2, 3, 4, 5⟩⟩

/-- A healthy world whose docker image prune fails with exit code 7. -/
def wCF : World :=
  ⟨true, true, true, true, true, true, 0, 0, 0, true, true, true, 7, 0, 0, 0,
    ⟨2024, 1, 2, 3, 4, 5⟩⟩

/-- A healthy world whose image prune succeeds but whose backup-retention
pipeline fails with exit code 9. -/
def wBPF : World :=
  ⟨true, true, true, true, true, true, 0, 0, 0, true, true, true, 0, 9, 0, 0,
    ⟨2024, 1, 2, 3, 4, 5⟩⟩

/-! ### Helper lemmas about digit strings -/

theorem digitChar_lt {a b : Nat} (hb : b < 10) (hab : a < b) :
    Nat.digitChar a < Nat.digitChar b := by
  interval_cases b <;> interval_cases a <;> decide

theorem lex_append_same {r1 r2 : List Char} (p : List Char)
    (h : List.Lex (· < ·) r1 r2) : List.Lex (· < ·) (p ++ r1) (p ++ r2) := by
  induction p with
  | nil => exact h
  | cons a p ih => exact List.Lex.cons ih

theorem padNum_append_lt {w : Nat} : ∀ {b1 b2 : Nat}, b1 < 10 ^ w → b2 < 10 ^ w →
    b1 < b2 → ∀ r1 r2 : List Char,
    List.Lex (· < ·) (padNum w b1 ++ r1) (padNum w b2 ++ r2) := by
  induction w with
  | zero =>
    intro b1 b2 h1 h2 h12 r1 r2
    simp [pow_zero] at h1 h2
    omega
  | succ w ih =>
    intro b1 b2 h1 h2 h12 r1 r2
    have hpow : 0 < 10 ^ w := pow_pos (by norm_num) w
    have hq2 : b2 / 10 ^ w < 10 := by
      rw [Nat.div_lt_iff_lt_mul hpow]
      calc b2 < 10 ^ (w + 1) := h2
        _ = 10 * 10 ^ w := by ring
    simp only [padNum, List.cons_append]
    rcases Nat.lt_or_ge (b1 / 10 ^ w) (b2 / 10 ^ w) with hq | hq
    · exact List.Lex.rel (digitChar_lt hq2 hq)
    · have hqe : b1 / 10 ^ w = b2 / 10 ^ w :=
        Nat.le_antisymm (Nat.div_le_div_right (Nat.le_of_lt h12)) hq
      have hm : b1 % 10 ^ w < b2 % 10 ^ w := by
        have e1 := Nat.div_add_mod b1 (10 ^ w)
        have e2 := Nat.div_add_mod b2 (10 ^ w)
        rw [hqe] at e1
        generalize hgen : 10 ^ w * (b2 / 10 ^ w) = s at e1 e2
        generalize hg1 : b1 % 10 ^ w = m1 at e1 ⊢
        generalize hg2 : b2 % 10 ^ w = m2 at e2 ⊢
        omega
      rw [hqe]
      exact List.Lex.cons (ih (Nat.mod_lt _ hpow) (Nat.mod_lt _ hpow) hm r1 r2)

theorem backupIdChars_lt (t1 t2 : DateTime) (h1 : t1.valid) (h2 : t2.valid)
    (h : t1.chronoLt t2) :
    List.Lex (· < ·) (backupIdChars t1) (backupIdChars t2) := by
  obtain ⟨hy1, hmo1, hmo1b, hd1, hd1b, hh1, hmi1, hs1⟩ := h1
  obtain ⟨hy2, hmo2, hmo2b, hd2, hd2b, hh2, hmi2, hs2⟩ := h2
  have p4 : (10 : Nat) ^ 4 = 10000 := by norm_num
  have p2 : (10 : Nat) ^ 2 = 100 := by norm_num
  unfold backupIdChars
  apply lex_append_same
  rcases h with hy | ⟨hye, h⟩
  · exact padNum_append_lt (by omega) (by omega) hy _ _
  · rw [hye]
    apply lex_append_same
    rcases h with hmo | ⟨hmoe, h⟩
    · exact padNum_append_lt (by omega) (by omega) hmo _ _
    · rw [hmoe]
      apply lex_append_same
      rcases h with hd | ⟨hde, h⟩
      · exact padNum_append_lt (by omega) (by omega) hd _ _
      · rw [hde]
        apply lex_append_same
        apply List.Lex.cons
        rcases h with hh | ⟨hhe, h⟩
        · exact padNum_append_lt (by omega) (by omega) hh _ _
        · rw [hhe]
          apply lex_append_same
          rcases h with hmi | ⟨hmie, hsec⟩
          · exact padNum_append_lt (by omega) (by omega) hmi _ _
          · rw [hmie]
            apply lex_append_same
            have := padNum_append_lt (w := 2) (by omega) (by omega) hsec ([]) ([])
            simpa using this

/-- C8: for valid wall-clock times, chronological order of creation implies
lexicographic order of the generated backup ids: the id format
backup_%Y%m%d_%H%M%S is fixed-width with most significant fields first, so
a later creation time yields a strictly greater id string. -/
theorem backupId_lt_of_chronoLt (t1 t2 : DateTime)
    (h1 : t1.valid) (h2 : t2.valid) (h : t1.chronoLt t2) :
    backupId t1 < backupId t2 := by
  have hlex := backupIdChars_lt t1 t2 h1 h2 h
  rw [String.lt_iff_toList_lt]
  show backupIdChars t1 < backupIdChars t2
  first
  | exact (List.lt_iff_lex_lt _ _).mpr hlex
  | exact hlex

/-- Witness for C8 at two concrete times one second apart. -/
theorem backupId_lt_of_chronoLt_witness :
    (DateTime.mk 2024 3 15 10 30 0).chronoLt (DateTime.mk 2024 3 15 10 30 1) ∧
    backupId (DateTime.mk 2024 3 15 10 30 0) < backupId (DateTime.mk 2024 3 15 10 30 1) :=
  ⟨by decide, backupId_lt_of_chronoLt _ _ (by decide) (by decide) (by decide)⟩

/-- C1: for every retention value K and every collection of backup records,
the retention step of cleanup keeps exactly min(N, K) records; the kept
records are the K greatest ids (newest first, since ids grow with creation
time), every removed record has an id at most that of every kept record,
and kept plus removed together are exactly the original records. -/
theorem pruneKeep_retention (K : Nat) (backups : List String) :
    (pruneKeep K backups).length = min backups.length K ∧
    (pruneKeep K backups ++ pruneRemoved K backups).Perm backups ∧
    List.Sorted (· ≥ ·) (pruneKeep K backups) ∧
    ∀ x ∈ pruneKeep K backups, ∀ y ∈ pruneRemoved K backups, y ≤ x := by
  have hsort : List.Sorted (· ≥ ·) (lsByRecency backups) := by
    unfold lsByRecency
    exact List.sorted_insertionSort _ _
  have hperm : (lsByRecency backups).Perm backups := by
    unfold lsByRecency
    exact List.perm_insertionSort _ _
  refine ⟨?_, ?_, ?_, ?_⟩
  · simp only [pruneKeep, List.length_take, hperm.length_eq]
    omega
  · simp only [pruneKeep, pruneRemoved, List.take_append_drop]
    exact hperm
  · simp only [pruneKeep]
    exact List.Pairwise.sublist (List.take_sublist _ _) hsort
  · rw [← List.take_append_drop K (lsByRecency backups)] at hsort
    intro x hx y hy
    exact (List.pairwise_append.mp hsort).2.2 x hx y hy

/-- C7: the overall health verdict equals the conjunction of the three
per-service probe results; it is false exactly when at least one service is
unhealthy, and there is no partial-success outcome. -/
theorem health_verdict_iff_all_healthy (w : World) :
    (health_check w).1 = (w.mainApiHealthy && w.scraperApiHealthy && w.frontendHealthy) ∧
    ((health_check w).1 = false ↔
      (w.mainApiHealthy = false ∨ w.scraperApiHealthy = false ∨
        w.frontendHealthy = false)) := by
  cases hm : w.mainApiHealthy <;> cases hs : w.scraperApiHealthy <;>
    cases hf : w.frontendHealthy <;> simp [health_check, hm, hs, hf]

/-- C2 counterexample: in a world where both the main API and the scraper
API probes would fail, health_check never probes the scraper API and never
reports its failure, so evaluation does not continue past the first
unhealthy service. -/
theorem health_check_counterexample :
    wHH.mainApiHealthy = false ∧ wHH.scraperApiHealthy = false ∧
    (health_check wHH).1 = false ∧
    Op.probe Service.scraperApi ∉ (health_check wHH).2.ops ∧
    "Scraper API health check failed" ∉ (health_check wHH).2.logs := by
  decide

/-- C2 amended: health_check probes the services in the fixed order main
API, scraper API, frontend, and returns at the first unhealthy one, so a
later service is probed exactly when all earlier ones are healthy, and a
failure message names exactly the first unhealthy service. -/
theorem health_check_stops_at_first_failure (w : World) :
    (Op.probe Service.mainApi ∈ (health_check w).2.ops) ∧
    (Op.probe Service.scraperApi ∈ (health_check w).2.ops ↔
      w.mainApiHealthy = true) ∧
    (Op.probe Service.frontend ∈ (health_check w).2.ops ↔
      (w.mainApiHealthy && w.scraperApiHealthy) = true) ∧
    ("Scraper API health check failed" ∈ (health_check w).2.logs ↔
      (w.mainApiHealthy = true ∧ w.scraperApiHealthy = false)) ∧
    ("Frontend health check failed" ∈ (health_check w).2.logs ↔
      (w.mainApiHealthy = true ∧ w.scraperApiHealthy = true ∧
        w.frontendHealthy = false)) := by
  cases hm : w.mainApiHealthy <;> cases hs : w.scraperApiHealthy <;>
    cases hf : w.frontendHealthy <;> simp [health_check, hm, hs, hf]

/-- C6: whenever at least one prerequisite probe fails, the run exits with
code 1 and performs no operation at all: no directory creation, no backup
write, no build, no stack command. -/
theorem prereq_failure_gates (env : String) (w : World)
    (h : w.dockerInstalled = false ∨ w.composeInstalled = false ∨
      w.envFilePresent = false ∨ w.composeFilePresent = false) :
    (main env w).1 = 1 ∧ (main env w).2.ops = [] := by
  cases hdk : w.dockerInstalled <;> cases hcp : w.composeInstalled <;>
    cases hef : w.envFilePresent <;> cases hcf : w.composeFilePresent <;>
    simp_all [main, mainRest, stages, andThen, check_prerequisites]

/-- Witness for C6: the environment file is missing, everything else is in
place, and the run aborts with exit code 1 having touched nothing. -/
theorem prereq_failure_gates_witness :
    (main "staging" wNoEnv).1 = 1 ∧ (main "staging" wNoEnv).2.ops = [] :=
  prereq_failure_gates "staging" wNoEnv (Or.inr (Or.inr (Or.inl rfl)))

/-- C9: two runs that differ only in the environment argument exit with the
same code, perform the same operations, and print the same log lines except
for the initial banner, which is the only place the argument reaches. -/
theorem environment_only_affects_banner (e1 e2 : String) (w : World) :
    (main e1 w).1 = (main e2 w).1 ∧
    (main e1 w).2.ops = (main e2 w).2.ops ∧
    (main e1 w).2.logs.tail = (main e2 w).2.logs.tail ∧
    (main e1 w).2.logs.head? =
      some ("Starting deployment for environment: " ++ e1) := by
  simp [main]

/-- C4 counterexample: a run whose health checks all pass but whose
docker image prune fails with exit code 7 terminates with exit code 7, not
0: under set -e a cleanup failure does demote the successful outcome. -/
theorem cleanup_failure_counterexample :
    (health_check wCF).1 = true ∧ (main "staging" wCF).1 = 7 := by
  decide

/-- C4 amended: when a run reaches cleanup (health verification passed) and
either cleanup command fails, set -e terminates the run with the failing
command's exit code instead of 0, so the failure does change the terminal
outcome: the image prune's code when the prune fails, otherwise the
backup-retention pipeline's code. -/
theorem cleanup_failure_changes_exit (env : String) (w : World)
    (h1 : w.dockerInstalled = true) (h2 : w.composeInstalled = true)
    (h3 : w.envFilePresent = true) (h4 : w.composeFilePresent = true)
    (hb : w.buildExit = 0) (hd : w.downExit = 0) (hu : w.upExit = 0)
    (hm : w.mainApiHealthy = true) (hs : w.scraperApiHealthy = true)
    (hf : w.frontendHealthy = true)
    (hc : w.imagePruneExit ≠ 0 ∨ w.backupPruneExit ≠ 0) :
    (main env w).1 =
      (if w.imagePruneExit ≠ 0 then w.imagePruneExit else w.backupPruneExit) ∧
    (main env w).1 ≠ 0 := by
  by_cases hi : w.imagePruneExit = 0
  · have hbp : w.backupPruneExit ≠ 0 := by
      rcases hc with h | h
      · exact absurd hi h
      · exact h
    simp [main, mainRest, stages, andThen, check_prerequisites, create_directories,
      backup_current, build_images, deploy_services, health_check, cleanup,
      h1, h2, h3, h4, hb, hd, hu, hm, hs, hf, hi, hbp]
  · simp [main, mainRest, stages, andThen, check_prerequisites, create_directories,
      backup_current, build_images, deploy_services, health_check, cleanup,
      h1, h2, h3, h4, hb, hd, hu, hm, hs, hf, hi]

/-- Witness for the amended C4 at two concrete healthy worlds: one whose
image prune fails with exit code 7, one whose backup-retention pipeline
fails with exit code 9. -/
theorem cleanup_failure_changes_exit_witness :
    ((main "production" wCF).1 = 7 ∧ (main "production" wCF).1 ≠ 0) ∧
    ((main "production" wBPF).1 = 9 ∧ (main "production" wBPF).1 ≠ 0) :=
  ⟨cleanup_failure_changes_exit "production" wCF rfl rfl rfl rfl rfl rfl rfl rfl
      rfl rfl (Or.inl (by decide)),
    cleanup_failure_changes_exit "production" wBPF rfl rfl rfl rfl rfl rfl rfl rfl
      rfl rfl (Or.inr (by decide))⟩

/-- C3 counterexample: a run whose health check fails and whose rollback
teardown itself fails with exit code 2 terminates with exit code 2, not 1:
under set -e the teardown error is propagated, not swallowed. -/
theorem rollback_teardown_counterexample :
    (health_check wRB2).1 = false ∧ (main "staging" wRB2).1 = 2 := by
  decide

/-- C3 amended: when health verification fails after cutover, the rollback
branch runs the teardown exactly once; if the teardown succeeds the run
exits with code 1, but if the teardown fails the run exits with the
teardown's own exit code, because set -e propagates it. -/
theorem rollback_teardown_exit (env : String) (w : World)
    (h1 : w.dockerInstalled = true) (h2 : w.composeInstalled = true)
    (h3 : w.envFilePresent = true) (h4 : w.composeFilePresent = true)
    (hb : w.buildExit = 0) (hd : w.downExit = 0) (hu : w.upExit = 0)
    (hh : (w.mainApiHealthy && w.scraperApiHealthy && w.frontendHealthy) = false) :
    (main env w).2.ops.count Op.rollbackDown = 1 ∧
    (main env w).1 = (if w.teardownExit = 0 then 1 else w.teardownExit) := by
  cases hm : w.mainApiHealthy <;> cases hs : w.scraperApiHealthy <;>
    cases hf : w.frontendHealthy <;>
    cases hcr : w.containersRunning <;> cases hev : w.envFilePresentAtBackup <;>
    by_cases ht : w.teardownExit = 0 <;>
    simp_all [main, mainRest, stages, andThen, check_prerequisites,
      create_directories, backup_current, build_images, deploy_services,
      health_check, List.count_append, List.count_cons]

/-- Witness for the amended C3 at a concrete world whose main API probe
fails and whose teardown succeeds. -/
theorem rollback_teardown_exit_witness :
    (main "staging" wRB).2.ops.count Op.rollbackDown = 1 ∧
    (main "staging" wRB).1 = (if wRB.teardownExit = 0 then 1 else wRB.teardownExit) :=
  rollback_teardown_exit "staging" wRB rfl rfl rfl rfl rfl rfl rfl (by decide)

/-- C5 counterexample: a run whose build command fails with exit code 2
terminates with exit code 2, not 1, although it is a failed run. -/
theorem exit_code_counterexample :
    wBF.buildExit = 2 ∧ (main "staging" wBF).1 = 2 := by
  decide

/-- C5 amended: the exit code is 0 exactly when every external command of
the run succeeds, including cleanup and the final container listing; a
prerequisite failure exits with code 1; a health-check failure whose
teardown succeeds exits with code 1; but every other failing external
command, namely the build, either cutover command, a failing rollback
teardown, the image prune, the backup-retention pipeline, and the final
container listing, makes set -e exit with that command's own exit code,
which need not be 1. -/
theorem exit_code_spec (env : String) (w : World) :
    ((main env w).1 = 0 ↔ succeededRun w) ∧
    (¬ prereqsOk w → (main env w).1 = 1) ∧
    (prereqsOk w → w.buildExit = 0 → w.downExit = 0 → w.upExit = 0 →
      (w.mainApiHealthy && w.scraperApiHealthy && w.frontendHealthy) = false →
      w.teardownExit = 0 → (main env w).1 = 1) ∧
    (prereqsOk w → w.buildExit ≠ 0 → (main env w).1 = w.buildExit) ∧
    (prereqsOk w → w.buildExit = 0 → w.downExit ≠ 0 →
      (main env w).1 = w.downExit) ∧
    (prereqsOk w → w.buildExit = 0 → w.downExit = 0 → w.upExit ≠ 0 →
      (main env w).1 = w.upExit) ∧
    (prereqsOk w → w.buildExit = 0 → w.downExit = 0 → w.upExit = 0 →
      (w.mainApiHealthy && w.scraperApiHealthy && w.frontendHealthy) = false →
      w.teardownExit ≠ 0 → (main env w).1 = w.teardownExit) ∧
    (prereqsOk w → w.buildExit = 0 → w.downExit = 0 → w.upExit = 0 →
      (w.mainApiHealthy && w.scraperApiHealthy && w.frontendHealthy) = true →
      w.imagePruneExit ≠ 0 → (main env w).1 = w.imagePruneExit) ∧
    (prereqsOk w → w.buildExit = 0 → w.downExit = 0 → w.upExit = 0 →
      (w.mainApiHealthy && w.scraperApiHealthy && w.frontendHealthy) = true →
      w.imagePruneExit = 0 → w.backupPruneExit ≠ 0 →
      (main env w).1 = w.backupPruneExit) ∧
    (prereqsOk w → w.buildExit = 0 → w.downExit = 0 → w.upExit = 0 →
      (w.mainApiHealthy && w.scraperApiHealthy && w.frontendHealthy) = true →
      w.imagePruneExit = 0 → w.backupPruneExit = 0 → w.psExit ≠ 0 →
      (main env w).1 = w.psExit) := by
  by_cases hdk : w.dockerInstalled = true
  case neg =>
    have h : w.dockerInstalled = false := by simpa using hdk
    simp [main, mainRest, stages, andThen, check_prerequisites, create_directories,
      backup_current, build_images, deploy_services, health_check, cleanup,
      succeededRun, prereqsOk, h]
  by_cases hcp : w.composeInstalled = true
  case neg =>
    have h : w.composeInstalled = false := by simpa using hcp
    simp [main, mainRest, stages, andThen, check_prerequisites, create_directories,
      backup_current, build_images, deploy_services, health_check, cleanup,
      succeededRun, prereqsOk, hdk, h]
  by_cases hef : w.envFilePresent = true
  case neg =>
    have h : w.envFilePresent = false := by simpa using hef
    simp [main, mainRest, stages, andThen, check_prerequisites, create_directories,
      backup_current, build_images, deploy_services, health_check, cleanup,
      succeededRun, prereqsOk, hdk, hcp, h]
  by_cases hcf : w.composeFilePresent = true
  case neg =>
    have h : w.composeFilePresent = false := by simpa using hcf
    simp [main, mainRest, stages, andThen, check_prerequisites, create_directories,
      backup_current, build_images, deploy_services, health_check, cleanup,
      succeededRun, prereqsOk, hdk, hcp, hef, h]
  by_cases hbx : w.buildExit = 0
  case neg =>
    simp [main, mainRest, stages, andThen, check_prerequisites, create_directories,
      backup_current, build_images, deploy_services, health_check, cleanup,
      succeededRun, prereqsOk, hdk, hcp, hef, hcf, hbx]
  by_cases hdx : w.downExit = 0
  case neg =>
    simp [main, mainRest, stages, andThen, check_prerequisites, create_directories,
      backup_current, build_images, deploy_services, health_check, cleanup,
      succeededRun, prereqsOk, hdk, hcp, hef, hcf, hbx, hdx]
  by_cases hux : w.upExit = 0
  case neg =>
    simp [main, mainRest, stages, andThen, check_prerequisites, create_directories,
      backup_current, build_images, deploy_services, health_check, cleanup,
      succeededRun, prereqsOk, hdk, hcp, hef, hcf, hbx, hdx, hux]
  by_cases hmh : w.mainApiHealthy = true
  case neg =>
    have h : w.mainApiHealthy = false := by simpa using hmh
    by_cases ht : w.teardownExit = 0 <;>
      simp [main, mainRest, stages, andThen, check_prerequisites, create_directories,
        backup_current, build_images, deploy_services, health_check, cleanup,
        succeededRun, prereqsOk, hdk, hcp, hef, hcf, hbx, hdx, hux, h, ht]
  by_cases hsh : w.scraperApiHealthy = true
  case neg =>
    have h : w.scraperApiHealthy = false := by simpa using hsh
    by_cases ht : w.teardownExit = 0 <;>
      simp [main, mainRest, stages, andThen, check_prerequisites, create_directories,
        backup_current, build_images, deploy_services, health_check, cleanup,
        succeededRun, prereqsOk, hdk, hcp, hef, hcf, hbx, hdx, hux, hmh, h, ht]
  by_cases hfh : w.frontendHealthy = true
  case neg =>
    have h : w.frontendHealthy = false := by simpa using hfh
    by_cases ht : w.teardownExit = 0 <;>
      simp [main, mainRest, stages, andThen, check_prerequisites, create_directories,
        backup_current, build_images, deploy_services, health_check, cleanup,
        succeededRun, prereqsOk, hdk, hcp, hef, hcf, hbx, hdx, hux, hmh, hsh, h, ht]
  by_cases himg : w.imagePruneExit = 0
  case neg =>
    simp [main, mainRest, stages, andThen, check_prerequisites, create_directories,
      backup_current, build_images, deploy_services, health_check, cleanup,
      succeededRun, prereqsOk, hdk, hcp, hef, hcf, hbx, hdx, hux, hmh, hsh, hfh, himg]
  by_cases hbk : w.backupPruneExit = 0
  case neg =>
    simp [main, mainRest, stages, andThen, check_prerequisites, create_directories,
      backup_current, build_images, deploy_services, health_check, cleanup,
      succeededRun, prereqsOk, hdk, hcp, hef, hcf, hbx, hdx, hux, hmh, hsh, hfh,
      himg, hbk]
  by_cases hps : w.psExit = 0
  case neg =>
    simp [main, mainRest, stages, andThen, check_prerequisites, create_directories,
      backup_current, build_images, deploy_services, health_check, cleanup,
      succeededRun, prereqsOk, hdk, hcp, hef, hcf, hbx, hdx, hux, hmh, hsh, hfh,
      himg, hbk, hps]
  simp [main, mainRest, stages, andThen, check_prerequisites, create_directories,
    backup_current, build_images, deploy_services, health_check, cleanup,
    succeededRun, prereqsOk, hdk, hcp, hef, hcf, hbx, hdx, hux, hmh, hsh, hfh,
    himg, hbk, hps]

/-- Witness for the amended C5: a fully successful run exits with code 0. -/
theorem exit_code_spec_witness : (main "staging" wOK).1 = 0 :=
  (exit_code_spec "staging" wOK).1.mpr (by decide)

theorem mem_ops_mainRest (w : World) (o : Op) (h : o ∈ (stages w).2.ops) :
    o ∈ (mainRest w).2.ops := by
  unfold mainRest
  rcases hs : stages w with ⟨c, e⟩
  rw [hs] at h
  simp only at h
  cases c with
  | some c => simpa using h
  | none =>
    rcases hc : cleanup w with ⟨cc, ce⟩
    by_cases hh : (health_check w).1 <;> rcases cc with _ | cc <;>
      by_cases hps : w.psExit = 0 <;> by_cases ht : w.teardownExit = 0 <;>
      simp [hc, hh, hps, ht, h]

theorem mem_logs_mainRest (w : World) (s : String) (h : s ∈ (stages w).2.logs) :
    s ∈ (mainRest w).2.logs := by
  unfold mainRest
  rcases hst : stages w with ⟨c, e⟩
  rw [hst] at h
  simp only at h
  cases c with
  | some c => simpa using h
  | none =>
    rcases hc : cleanup w with ⟨cc, ce⟩
    by_cases hh : (health_check w).1 <;> rcases cc with _ | cc <;>
      by_cases hps : w.psExit = 0 <;> by_cases ht : w.teardownExit = 0 <;>
      simp [hc, hh, hps, ht, h]

theorem stages_ops_build (w : World)
    (h1 : w.dockerInstalled = true) (h2 : w.composeInstalled = true)
    (h3 : w.envFilePresent = true) (h4 : w.composeFilePresent = true) :
    Op.buildImages ∈ (stages w).2.ops := by
  by_cases hb : w.buildExit = 0 <;>
    simp [stages, andThen, check_prerequisites, create_directories, backup_current,
      build_images, deploy_services, h1, h2, h3, h4, hb]

theorem stages_logs_backup (w : World)
    (h1 : w.dockerInstalled = true) (h2 : w.composeInstalled = true)
    (h3 : w.envFilePresent = true) (h4 : w.composeFilePresent = true) :
    ("Backup completed: " ++ backupId w.now) ∈ (stages w).2.logs := by
  simp [stages, andThen, check_prerequisites, create_directories, backup_current,
    build_images, deploy_services, h1, h2, h3, h4]

/-- C10: when the environment file has disappeared by the time
backup_current runs (though it was present for the prerequisite check), the
backup step still completes without aborting the run, simply omitting the
environment-file copy from the record, the completion message is logged,
and the run proceeds to the build stage. -/
theorem backup_tolerates_missing_env (env : String) (w : World)
    (h1 : w.dockerInstalled = true) (h2 : w.composeInstalled = true)
    (h3 : w.envFilePresent = true) (h4 : w.composeFilePresent = true)
    (henv : w.envFilePresentAtBackup = false) :
    (backup_current w).1 = none ∧
    (∀ n, Op.copyEnvFile n ∉ (backup_current w).2.ops) ∧
    ("Backup completed: " ++ backupId w.now) ∈ (main env w).2.logs ∧
    Op.buildImages ∈ (main env w).2.ops := by
  refine ⟨rfl, ?_, ?_, ?_⟩
  · intro n
    cases hcr : w.containersRunning <;> simp [backup_current, henv, hcr]
  · have hlift := mem_logs_mainRest w _ (stages_logs_backup w h1 h2 h3 h4)
    simp only [main]
    exact List.mem_cons_of_mem _ hlift
  · exact mem_ops_mainRest w _ (stages_ops_build w h1 h2 h3 h4)

/-- Witness for C10 at a concrete world whose environment file is gone at
backup time. -/
theorem backup_tolerates_missing_env_witness :
    (backup_current wME).1 = none ∧
    Op.copyEnvFile (backupId wME.now) ∉ (backup_current wME).2.ops ∧
    ("Backup completed: " ++ backupId wME.now) ∈ (main "staging" wME).2.logs ∧
    Op.buildImages ∈ (main "staging" wME).2.ops := by
  obtain ⟨a, b, c, d⟩ :=
    backup_tolerates_missing_env "staging" wME rfl rfl rfl rfl rfl
  exact ⟨a, b _, c, d⟩

end DeploySh
